import Mathlib

/-!
Verification of the nvml-ocsd-reporter telemetry bridge (src/main.rs).

The development shallowly embeds the program: pure helper functions of the
source become Lean functions; the bridge session (header write, zeroing
loop, polling loop, ctrl-c stop handler) becomes a small-step transition
system whose nondeterminism covers the interleaving of the polling thread
and the signal handler.  Machine integers are modelled as Nat/Int, with
explicit `% 256` / `% 65536` where the source's u8/u16 arithmetic wraps,
and fallible conversions (`try_into().unwrap()`) as Option.
-/

/-- Persisted application state (struct AppState in main.rs): the update
counter (u16) and the slot offset captured at first run (u8). -/
structure AppState where
  count : Nat
  original_buffers_in_use : Nat
deriving DecidableEq, Repr

/-- Model of the shared table header (OcsdHeader from the external ocsd
crate).  Only `buffers_in_use` and `max_option_cards` are used by the
program; `firmware_rest` abstracts every remaining firmware-owned field,
so that the frame condition of `make_modified_header` can be stated. -/
structure OcsdHeader where
  buffers_in_use : Nat
  max_option_cards : Nat
  firmware_rest : Nat
deriving DecidableEq, Repr

/-- Device protocol version marker (ocsd::DeviceVersion). -/
inductive DeviceVersion where
  | Unknown
  | Version1
deriving DecidableEq, Repr

/-- Sensor type marker (ocsd::OcsdSensorType); `Unknown` stands for the
crate's Default value used in empty sensor sub-records. -/
inductive OcsdSensorType where
  | Unknown
  | Thermal
deriving DecidableEq, Repr

/-- Sensor location marker (ocsd::OcsdSensorLocation). -/
inductive OcsdSensorLocation where
  | Unknown
  | InternalToAsic
deriving DecidableEq, Repr

/-- Sensor status flags (ocsd::OcsdSensorStatus); the bitwise OR of the
source is modelled as a list of flags. -/
inductive OcsdSensorStatus where
  | WithChecksum
  | Present
  | NotFailed
deriving DecidableEq, Repr

/-- Modelled from the spec: the external ocsd crate's Celsius wrapper for
the wire format's signed 8-bit-scaled Celsius temperatures. -/
structure Celsius where
  val : Int
deriving DecidableEq, Repr

/-- Modelled from the spec: Celsius::new of the external ocsd crate
accepts only values representable in the wire format's signed 8-bit
Celsius encoding and rejects any other value. -/
def Celsius.new (v : Int) : Option Celsius :=
  if -128 ≤ v ∧ v ≤ 127 then some ⟨v⟩ else none

/-- One sensor sub-record of the wire format (ocsd::OcsdSensor). -/
structure OcsdSensor where
  sensor_type : OcsdSensorType
  sensor_location : OcsdSensorLocation
  configuration : Nat
  status : List OcsdSensorStatus
  max_continuous_threshold : Celsius
  caution_threshold : Celsius
  reading : Celsius
  update_count : Nat
  bus : Option Nat
deriving DecidableEq, Repr

/-- Modelled from the spec: the crate's Default sensor sub-record, an
all-zero/"unknown" sensor entry. -/
def OcsdSensor.unknownDefault : OcsdSensor :=
  { sensor_type := .Unknown
    sensor_location := .Unknown
    configuration := 0
    status := []
    max_continuous_threshold := ⟨0⟩
    caution_threshold := ⟨0⟩
    reading := ⟨0⟩
    update_count := 0
    bus := none }

/-- Per-device header of the wire format (ocsd::OcsdDeviceHeader). -/
structure OcsdDeviceHeader where
  version : DeviceVersion
  pci_bus : Nat
  pci_device : Nat
  flags_caps : Nat
deriving DecidableEq, Repr

/-- One slot record of the shared table (ocsd::OcsdDevice): device header
plus three sensor sub-records. -/
structure OcsdDevice where
  header : OcsdDeviceHeader
  sensors : List OcsdSensor
deriving DecidableEq, Repr

/-- The all-zero/"unknown" record the zeroing loop writes (main.rs,
lines 330-339). -/
def zeroOcsdDevice : OcsdDevice :=
  { header := { version := .Unknown, pci_bus := 0, pci_device := 0, flags_caps := 0 }
    sensors := [OcsdSensor.unknownDefault, OcsdSensor.unknownDefault, OcsdSensor.unknownDefault] }

/-- PCI information returned by the telemetry source (the fields the
program uses). -/
structure PciInfo where
  bus : Nat
deriving DecidableEq, Repr

/-- The bus-to-slot lookup (impl HasSlot for PciInfo in main.rs): bus 0x04
maps to slot 1, bus 0x0a to slot 2, anything else to none. -/
def PciInfo.slot (p : PciInfo) : Option Nat :=
  match p.bus with
  | 0x04 => some 1
  | 0x0a => some 2
  | _ => none

/-- Device snapshot produced each poll (struct DeviceInfo in main.rs). -/
structure DeviceInfo where
  slot : Option Nat
  pci_bus : Nat
  current_temperature_celsius : Int
  temperature_threshold_celsius : Option Int
  name : String
  count : Nat
deriving DecidableEq, Repr

/-- Results of the individual fallible calls the telemetry source can
answer for one device handle; `Except Unit` stands for Result<_, NvmlError>. -/
structure NvmlDevice where
  pci_info : Except Unit PciInfo
  temperature : Except Unit Nat
  temperature_threshold : Except Unit Nat
  name : Except Unit String

/-- The u32-to-u8 conversion `try_into().unwrap()`; none models the panic. -/
def u8_try (n : Nat) : Option Nat :=
  if n < 256 then some n else none

/-- The u32-to-i16 conversion `try_into().unwrap()`; none models the panic. -/
def i16_try_u32 (n : Nat) : Option Int :=
  if n ≤ 32767 then some (n : Int) else none

/-- The u32 subtraction `threshold - 20`; none models the debug-profile
underflow panic (in release the wrapped value then fails the i16
conversion, so the overall outcome is a panic either way). -/
def u32_sub (a b : Nat) : Option Nat :=
  if b ≤ a then some (a - b) else none

/-- read_device_info (main.rs, lines 104-134).  The outer Option models a
panic in one of the `unwrap`ed conversions; the inner Except is the
function's own Result.  A failed slowdown-threshold read is downgraded to
Some(70); a successful read of T yields Some(T - 20). -/
def read_device_info (dev : NvmlDevice) (count : Nat) : Option (Except Unit DeviceInfo) :=
  match dev.pci_info with
  | .error e => some (.error e)
  | .ok pci =>
    match u8_try pci.bus with
    | none => none
    | some pci_bus =>
      match dev.temperature with
      | .error e => some (.error e)
      | .ok t =>
        match i16_try_u32 t with
        | none => none
        | some current =>
          match (match dev.temperature_threshold with
                 | .ok th => ((u32_sub th 20).bind i16_try_u32).map some
                 | .error _ => some (some (70 : Int))) with
          | none => none
          | some threshold =>
            match dev.name with
            | .error e => some (.error e)
            | .ok nm =>
              some (.ok
                { slot := pci.slot
                  pci_bus := pci_bus
                  current_temperature_celsius := current
                  temperature_threshold_celsius := threshold
                  name := nm
                  count := count })

/-- The snapshot encoder (impl From<DeviceInfo> for OcsdDevice, main.rs
lines 137-168).  none models the panic of `Celsius::new(..).unwrap()`
when a temperature is outside the wire representation. -/
def ocsdDeviceOfDeviceInfo (device : DeviceInfo) : Option OcsdDevice :=
  match Celsius.new (device.temperature_threshold_celsius.getD 90) with
  | none => none
  | some maxCont =>
    match Celsius.new 100 with
    | none => none
    | some caution =>
      match Celsius.new device.current_temperature_celsius with
      | none => none
      | some reading =>
        some
          { header :=
              { version := .Version1
                pci_bus := device.pci_bus
                pci_device := 0x00
                flags_caps := 0x00000010 }
            sensors :=
              [ { sensor_type := .Thermal
                  sensor_location := .InternalToAsic
                  configuration := 0x0000
                  status := [.WithChecksum, .Present, .NotFailed]
                  max_continuous_threshold := maxCont
                  caution_threshold := caution
                  reading := reading
                  update_count := device.count
                  bus := some device.pci_bus }
                , OcsdSensor.unknownDefault, OcsdSensor.unknownDefault ] }

/-- load_app_state (main.rs, lines 210-232).  The argument models the two
fallible stages: opening/reading the state file and deserializing it.
On any failure the default derived from the header is returned. -/
def load_app_state (header : OcsdHeader) (file_read : Except Unit (Except Unit AppState)) : AppState :=
  match file_read with
  | .ok (.ok app_state) => app_state
  | .ok (.error _) => { count := 0, original_buffers_in_use := header.buffers_in_use }
  | .error _ => { count := 0, original_buffers_in_use := header.buffers_in_use }

/-- make_modified_header (main.rs, lines 243-252): struct-update of the
original header with buffers_in_use set to the persisted offset plus the
device count.  The u8 arithmetic (including `devices.len() as u8`) is
modelled with wrapping `% 256`. -/
def make_modified_header (original_header : OcsdHeader) (app_state : AppState)
    (num_devices : Nat) : OcsdHeader :=
  { original_header with
    buffers_in_use := (app_state.original_buffers_in_use + num_devices % 256) % 256 }

/-- ocsd_slot_for_index (main.rs, lines 320-323): the 0-based table slot
of the device at position `index` in the managed device list. -/
def ocsd_slot_for_index (index : Nat) (app_state : AppState) : Nat :=
  index + app_state.original_buffers_in_use

/-- Observable effects of a session on the shared table and state file. -/
inductive Event where
  | writeHeader (h : OcsdHeader)
  | writeSlot (idx : Nat) (record : OcsdDevice)
  | persist (s : AppState)
deriving DecidableEq, Repr

/-- Program counter of the main (polling) thread inside the session. -/
inductive LoopPC where
  | writeHdr
  | zeroing (i : Nat)
  | sweeping (j : Nat)
  | sleeping
  | incrementing
  | checking
  | exited
  | errored
deriving DecidableEq, Repr

/-- Program counter of the ctrl-c handler thread. -/
inductive HandlerPC where
  | idle
  | persisting
  | raising
  | done
deriving DecidableEq, Repr

/-- State shared between the two threads plus the event history: the
atomic counter, the atomic termination flag, the state file contents
(none means the file is still the truncated empty file produced by
open_state_file), and the list of effects so far. -/
structure Sys where
  loopPC : LoopPC
  handlerPC : HandlerPC
  count : Nat
  flag : Bool
  file : Option AppState
  events : List Event
deriving DecidableEq, Repr

/-- The fixed data of one session: the header read at startup, the
outcome of reading the persisted state, the number of managed devices
(after the slot filter), and an oracle giving the record that encoding
device `j` produces when the counter reads `c` (the polling writes). -/
structure BridgeEnv where
  original_header : OcsdHeader
  state_read : Except Unit (Except Unit AppState)
  num_devices : Nat
  poll_record : Nat → Nat → OcsdDevice

/-- The state loaded at session start (load_app_state in main). -/
def BridgeEnv.app_state (ρ : BridgeEnv) : AppState :=
  load_app_state ρ.original_header ρ.state_read

/-- The session's persisted slot offset `original_buffers_in_use`. -/
def BridgeEnv.base (ρ : BridgeEnv) : Nat :=
  ρ.app_state.original_buffers_in_use

/-- Number of iterations of the zeroing loop:
`max_option_cards - original_buffers_in_use` (u8 subtraction, assumed
not to underflow as in the source). -/
def BridgeEnv.zero_count (ρ : BridgeEnv) : Nat :=
  ρ.original_header.max_option_cards - ρ.base

/-- The header written back at startup. -/
def BridgeEnv.modified_header (ρ : BridgeEnv) : OcsdHeader :=
  make_modified_header ρ.original_header ρ.app_state ρ.num_devices

/-- Initial session state: counter restored from the loaded state, flag
down, state file truncated, no effects yet. -/
def initSys (ρ : BridgeEnv) : Sys :=
  { loopPC := .writeHdr
    handlerPC := .idle
    count := ρ.app_state.count
    flag := false
    file := none
    events := [] }

/-- One interleaved step of the session.  Loop-thread steps follow
main.rs lines 296-356; handler-thread steps follow the ctrl-c closure at
lines 308-318 (persist the counter, then raise the flag). -/
inductive Step (ρ : BridgeEnv) : Sys → Sys → Prop where
  | write_header (hp c fl fi ev) :
      Step ρ ⟨.writeHdr, hp, c, fl, fi, ev⟩
        ⟨.zeroing 0, hp, c, fl, fi, ev ++ [.writeHeader ρ.modified_header]⟩
  | zero_write (i hp c fl fi ev) (hi : i < ρ.zero_count) :
      Step ρ ⟨.zeroing i, hp, c, fl, fi, ev⟩
        ⟨.zeroing (i + 1), hp, c, fl, fi,
          ev ++ [.writeSlot (ocsd_slot_for_index i ρ.app_state) zeroOcsdDevice]⟩
  | zero_done (hp c fl fi ev) :
      Step ρ ⟨.zeroing ρ.zero_count, hp, c, fl, fi, ev⟩
        ⟨.sweeping 0, hp, c, fl, fi, ev⟩
  | sweep_write (j hp c fl fi ev) (hj : j < ρ.num_devices) :
      Step ρ ⟨.sweeping j, hp, c, fl, fi, ev⟩
        ⟨.sweeping (j + 1), hp, c, fl, fi,
          ev ++ [.writeSlot (ocsd_slot_for_index j ρ.app_state) (ρ.poll_record j c)]⟩
  | sweep_fail (j hp c fl fi ev) (hj : j < ρ.num_devices) :
      Step ρ ⟨.sweeping j, hp, c, fl, fi, ev⟩
        ⟨.errored, hp, c, fl, fi, ev⟩
  | sweep_done (hp c fl fi ev) :
      Step ρ ⟨.sweeping ρ.num_devices, hp, c, fl, fi, ev⟩
        ⟨.sleeping, hp, c, fl, fi, ev⟩
  | sleep_done (hp c fl fi ev) :
      Step ρ ⟨.sleeping, hp, c, fl, fi, ev⟩
        ⟨.incrementing, hp, c, fl, fi, ev⟩
  | increment (hp c fl fi ev) :
      Step ρ ⟨.incrementing, hp, c, fl, fi, ev⟩
        ⟨.checking, hp, (c + 1) % 65536, fl, fi, ev⟩
  | check_exit (hp c fi ev) :
      Step ρ ⟨.checking, hp, c, true, fi, ev⟩
        ⟨.exited, hp, c, true, fi, ev⟩
  | check_continue (hp c fi ev) :
      Step ρ ⟨.checking, hp, c, false, fi, ev⟩
        ⟨.sweeping 0, hp, c, false, fi, ev⟩
  | signal (l c fl fi ev) :
      Step ρ ⟨l, .idle, c, fl, fi, ev⟩
        ⟨l, .persisting, c, fl, fi, ev⟩
  | persist_state (l c fl fi ev) :
      Step ρ ⟨l, .persisting, c, fl, fi, ev⟩
        ⟨l, .raising, c, fl, some ⟨c, ρ.base⟩, ev ++ [.persist ⟨c, ρ.base⟩]⟩
  | raise_flag (l c fi ev) :
      Step ρ ⟨l, .raising, c, false, fi, ev⟩
        ⟨l, .done, c, true, fi, ev⟩

/-- Reachability of a session state from the initial one. -/
def Run (ρ : BridgeEnv) (s : Sys) : Prop :=
  Relation.ReflTransGen (Step ρ) (initSys ρ) s

/-- Slot writes (index and record) among a list of effects. -/
def slotWrites (ev : List Event) : List (Nat × OcsdDevice) :=
  ev.filterMap fun e =>
    match e with
    | .writeSlot i r => some (i, r)
    | _ => none

/-- Header writes among a list of effects. -/
def headerWrites (ev : List Event) : List OcsdHeader :=
  ev.filterMap fun e =>
    match e with
    | .writeHeader h => some h
    | _ => none

/-- State-file writes among a list of effects. -/
def persistWrites (ev : List Event) : List AppState :=
  ev.filterMap fun e =>
    match e with
    | .persist s => some s
    | _ => none

/-- Slot indices written, in order. -/
def writtenSlotIndices (ev : List Event) : List Nat :=
  (slotWrites ev).map Prod.fst

/-- The slot writes the zeroing loop performs. -/
def zeroWriteList (ρ : BridgeEnv) : List (Nat × OcsdDevice) :=
  (List.range ρ.zero_count).map fun i =>
    (ocsd_slot_for_index i ρ.app_state, zeroOcsdDevice)

/-- The slot writes one polling sweep performs when the counter reads `c`. -/
def sweepWriteList (ρ : BridgeEnv) (c : Nat) : List (Nat × OcsdDevice) :=
  (List.range ρ.num_devices).map fun j =>
    (ocsd_slot_for_index j ρ.app_state, ρ.poll_record j c)

/-- Counter value after `k` wrapping u16 increments. -/
def countAt (ρ : BridgeEnv) (k : Nat) : Nat :=
  (fun c => (c + 1) % 65536)^[k] ρ.app_state.count

/-- The slot writes of the first `k` complete polling sweeps. -/
def sweepBlocks (ρ : BridgeEnv) (k : Nat) : List (Nat × OcsdDevice) :=
  ((List.range k).map fun t => sweepWriteList ρ (countAt ρ t)).flatten

/-- Invariant of the loop thread: what the event history and the counter
look like at each loop program point. -/
def loopInv (ρ : BridgeEnv) (s : Sys) : Prop :=
  match s.loopPC with
  | .writeHdr =>
      headerWrites s.events = [] ∧ slotWrites s.events = [] ∧ s.count = countAt ρ 0
  | .zeroing i =>
      i ≤ ρ.zero_count ∧ headerWrites s.events = [ρ.modified_header] ∧
        slotWrites s.events = (zeroWriteList ρ).take i ∧ s.count = countAt ρ 0
  | .sweeping j =>
      j ≤ ρ.num_devices ∧ headerWrites s.events = [ρ.modified_header] ∧
        ∃ k, slotWrites s.events
            = zeroWriteList ρ ++ sweepBlocks ρ k ++ (sweepWriteList ρ (countAt ρ k)).take j ∧
          s.count = countAt ρ k
  | .sleeping =>
      headerWrites s.events = [ρ.modified_header] ∧
        ∃ k, slotWrites s.events = zeroWriteList ρ ++ sweepBlocks ρ (k + 1) ∧
          s.count = countAt ρ k
  | .incrementing =>
      headerWrites s.events = [ρ.modified_header] ∧
        ∃ k, slotWrites s.events = zeroWriteList ρ ++ sweepBlocks ρ (k + 1) ∧
          s.count = countAt ρ k
  | .checking =>
      headerWrites s.events = [ρ.modified_header] ∧
        ∃ k, 1 ≤ k ∧ slotWrites s.events = zeroWriteList ρ ++ sweepBlocks ρ k ∧
          s.count = countAt ρ k
  | .exited =>
      s.flag = true ∧ headerWrites s.events = [ρ.modified_header] ∧
        ∃ k, 1 ≤ k ∧ slotWrites s.events = zeroWriteList ρ ++ sweepBlocks ρ k ∧
          s.count = countAt ρ k
  | .errored =>
      headerWrites s.events = [ρ.modified_header] ∧
        ∃ k j, slotWrites s.events
          = zeroWriteList ρ ++ sweepBlocks ρ k ++ (sweepWriteList ρ (countAt ρ k)).take j

/-- Invariant of the handler thread: the flag is up exactly when the
handler has finished, and the persisted record carries the counter value
the handler read together with the session's offset. -/
def handlerInv (ρ : BridgeEnv) (s : Sys) : Prop :=
  match s.handlerPC with
  | .idle => persistWrites s.events = [] ∧ s.file = none ∧ s.flag = false
  | .persisting => persistWrites s.events = [] ∧ s.file = none ∧ s.flag = false
  | .raising =>
      s.flag = false ∧
        ∃ c, persistWrites s.events = [⟨c, ρ.base⟩] ∧ s.file = some ⟨c, ρ.base⟩
  | .done =>
      s.flag = true ∧
        ∃ c, persistWrites s.events = [⟨c, ρ.base⟩] ∧ s.file = some ⟨c, ρ.base⟩

/-- The full session invariant. -/
def sysInv (ρ : BridgeEnv) (s : Sys) : Prop :=
  loopInv ρ s ∧ handlerInv ρ s

/-! ## A concrete session used in witnesses and counterexamples

One managed device, a table with two option-card slots, no prior state
file (so `original_buffers_in_use` falls back to the header's value 0),
and a stop request that is fully handled before the first polling sweep
begins. -/

/-- Concrete session data: header `⟨0, 2, 0⟩`, failed state read, one
device. -/
def envC1 : BridgeEnv :=
  { original_header := { buffers_in_use := 0, max_option_cards := 2, firmware_rest := 0 }
    state_read := .error ()
    num_devices := 1
    poll_record := fun _ _ => zeroOcsdDevice }

/-- The session state of `envC1` just after the stop handler finished
(persist, then flag) while the loop is about to begin its first sweep. -/
def sysMid : Sys :=
  { loopPC := .sweeping 0
    handlerPC := .done
    count := 0
    flag := true
    file := some ⟨0, 0⟩
    events := [.writeHeader ⟨1, 2, 0⟩,
               .writeSlot 0 zeroOcsdDevice,
               .writeSlot 1 zeroOcsdDevice,
               .persist ⟨0, 0⟩] }

/-- The terminated session state of `envC1`: the first sweep completed
after the flag was already up, then the loop observed the flag. -/
def sysFin : Sys :=
  { loopPC := .exited
    handlerPC := .done
    count := 1
    flag := true
    file := some ⟨0, 0⟩
    events := [.writeHeader ⟨1, 2, 0⟩,
               .writeSlot 0 zeroOcsdDevice,
               .writeSlot 1 zeroOcsdDevice,
               .persist ⟨0, 0⟩,
               .writeSlot 0 zeroOcsdDevice] }

/-- Projection: did read_device_info return Ok (neither a propagated
telemetry error nor a panic)? -/
def readSucceeded (r : Option (Except Unit DeviceInfo)) : Bool :=
  match r with
  | some (.ok _) => true
  | _ => false

/-- Projection: the `temperature_threshold_celsius` field of a
successful read. -/
def snapshotThreshold (r : Option (Except Unit DeviceInfo)) : Option (Option Int) :=
  match r with
  | some (.ok d) => some d.temperature_threshold_celsius
  | _ => none

/-- Projection: the `max_continuous_threshold` of the first sensor of
the record obtained by encoding a successful read. -/
def encodedMaxThreshold (r : Option (Except Unit DeviceInfo)) : Option Celsius :=
  match r with
  | some (.ok d) =>
    match ocsdDeviceOfDeviceInfo d with
    | some od =>
      match od.sensors with
      | s0 :: _ => some s0.max_continuous_threshold
      | [] => none
    | none => none
  | _ => none

/-- Concrete telemetry outcomes with a failed threshold read. -/
def devThresholdFail : NvmlDevice :=
  { pci_info := .ok ⟨0x04⟩
    temperature := .ok 50
    temperature_threshold := .error ()
    name := .ok "gpu0" }

/-- Concrete telemetry outcomes with a successful threshold read of 90. -/
def devThresholdOk : NvmlDevice :=
  { pci_info := .ok ⟨0x0a⟩
    temperature := .ok 55
    temperature_threshold := .ok 90
    name := .ok "gpu1" }

/-- Claim C1 as stated: in every terminated session the set of slot
indices ever written is exactly the device slots
`{base, ..., base + num_devices - 1}`, and no index below `base` is
written. -/
def claimC1statement (ρ : BridgeEnv) : Prop :=
  ∀ s, Run ρ s → s.loopPC = .exited →
    (∀ x, x ∈ writtenSlotIndices s.events ↔ ρ.base ≤ x ∧ x < ρ.base + ρ.num_devices)
    ∧ (∀ x ∈ writtenSlotIndices s.events, ρ.base ≤ x)

/-- Claim C2 as stated: the zeroing phase writes exactly
`max_option_cards - original_buffers_in_use` slots and never a slot
assigned to a live managed device of the current session. -/
def claimC2statement (ρ : BridgeEnv) : Prop :=
  (zeroWriteList ρ).length = ρ.original_header.max_option_cards - ρ.base
  ∧ ∀ p ∈ zeroWriteList ρ, ∀ j < ρ.num_devices, p.1 ≠ ocsd_slot_for_index j ρ.app_state

/-- The guarantee a check of the termination flag at the top of each
polling iteration would give: once the flag is up when the loop stands
at the start of a sweep, no further slot write happens. -/
def observesFlagAtTop (ρ : BridgeEnv) : Prop :=
  ∀ s t : Sys, Run ρ s → s.loopPC = .sweeping 0 → s.flag = true →
    Relation.ReflTransGen (Step ρ) s t →
    slotWrites t.events = slotWrites s.events

/-- Claim C9 as stated: the handler persists before raising the flag,
and the loop observes the flag at the top of each polling iteration. -/
def claimC9statement (ρ : BridgeEnv) : Prop :=
  (∀ s : Sys, Run ρ s → s.flag = true →
    ∃ c, persistWrites s.events = [⟨c, ρ.base⟩] ∧ s.file = some ⟨c, ρ.base⟩)
  ∧ observesFlagAtTop ρ

@[simp]
lemma slotWrites_append (a b : List Event) :
    slotWrites (a ++ b) = slotWrites a ++ slotWrites b := by
  simp [slotWrites, List.filterMap_append]

@[simp]
lemma headerWrites_append (a b : List Event) :
    headerWrites (a ++ b) = headerWrites a ++ headerWrites b := by
  simp [headerWrites, List.filterMap_append]

@[simp]
lemma persistWrites_append (a b : List Event) :
    persistWrites (a ++ b) = persistWrites a ++ persistWrites b := by
  simp [persistWrites, List.filterMap_append]

@[simp] lemma slotWrites_nil : slotWrites [] = [] := rfl
@[simp] lemma headerWrites_nil : headerWrites [] = [] := rfl
@[simp] lemma persistWrites_nil : persistWrites [] = [] := rfl

@[simp] lemma slotWrites_writeHeader (h : OcsdHeader) :
    slotWrites [.writeHeader h] = [] := rfl
@[simp] lemma slotWrites_writeSlot (i : Nat) (r : OcsdDevice) :
    slotWrites [.writeSlot i r] = [(i, r)] := rfl
@[simp] lemma slotWrites_persist (s : AppState) :
    slotWrites [.persist s] = [] := rfl

@[simp] lemma headerWrites_writeHeader (h : OcsdHeader) :
    headerWrites [.writeHeader h] = [h] := rfl
@[simp] lemma headerWrites_writeSlot (i : Nat) (r : OcsdDevice) :
    headerWrites [.writeSlot i r] = [] := rfl
@[simp] lemma headerWrites_persist (s : AppState) :
    headerWrites [.persist s] = [] := rfl

@[simp] lemma persistWrites_writeHeader (h : OcsdHeader) :
    persistWrites [.writeHeader h] = [] := rfl
@[simp] lemma persistWrites_writeSlot (i : Nat) (r : OcsdDevice) :
    persistWrites [.writeSlot i r] = [] := rfl
@[simp] lemma persistWrites_persist (s : AppState) :
    persistWrites [.persist s] = [s] := rfl

lemma countAt_succ (ρ : BridgeEnv) (k : Nat) :
    countAt ρ (k + 1) = (countAt ρ k + 1) % 65536 := by
  simp [countAt, Function.iterate_succ_apply']

lemma sweepBlocks_succ (ρ : BridgeEnv) (k : Nat) :
    sweepBlocks ρ (k + 1) = sweepBlocks ρ k ++ sweepWriteList ρ (countAt ρ k) := by
  simp [sweepBlocks, List.range_succ]

@[simp] lemma zeroWriteList_length (ρ : BridgeEnv) :
    (zeroWriteList ρ).length = ρ.zero_count := by
  simp [zeroWriteList]

@[simp] lemma sweepWriteList_length (ρ : BridgeEnv) (c : Nat) :
    (sweepWriteList ρ c).length = ρ.num_devices := by
  simp [sweepWriteList]

lemma zeroWriteList_take_succ (ρ : BridgeEnv) (i : Nat) (hi : i < ρ.zero_count) :
    (zeroWriteList ρ).take i ++ [(ocsd_slot_for_index i ρ.app_state, zeroOcsdDevice)]
      = (zeroWriteList ρ).take (i + 1) := by
  have hlen : i < (zeroWriteList ρ).length := by simpa using hi
  rw [List.take_succ]
  have : (zeroWriteList ρ)[i]? = some (ocsd_slot_for_index i ρ.app_state, zeroOcsdDevice) := by
    rw [List.getElem?_eq_getElem hlen]
    simp [zeroWriteList]
  simp [this]

lemma sweepWriteList_take_succ (ρ : BridgeEnv) (c : Nat) (j : Nat) (hj : j < ρ.num_devices) :
    (sweepWriteList ρ c).take j ++ [(ocsd_slot_for_index j ρ.app_state, ρ.poll_record j c)]
      = (sweepWriteList ρ c).take (j + 1) := by
  have hlen : j < (sweepWriteList ρ c).length := by simpa using hj
  rw [List.take_succ]
  have : (sweepWriteList ρ c)[j]? = some (ocsd_slot_for_index j ρ.app_state, ρ.poll_record j c) := by
    rw [List.getElem?_eq_getElem hlen]
    simp [sweepWriteList]
  simp [this]

lemma zeroWriteList_take_all (ρ : BridgeEnv) :
    (zeroWriteList ρ).take ρ.zero_count = zeroWriteList ρ := by
  apply List.take_of_length_le
  simp

lemma sweepWriteList_take_all (ρ : BridgeEnv) (c : Nat) :
    (sweepWriteList ρ c).take ρ.num_devices = sweepWriteList ρ c := by
  apply List.take_of_length_le
  simp

lemma sysInv_init (ρ : BridgeEnv) : sysInv ρ (initSys ρ) := by
  refine ⟨?_, ?_⟩ <;> simp [loopInv, handlerInv, initSys, countAt]

@[simp] lemma sweepBlocks_zero (ρ : BridgeEnv) : sweepBlocks ρ 0 = [] := by
  simp [sweepBlocks]

theorem sysInv_step (ρ : BridgeEnv) {s t : Sys} (hst : Step ρ s t) (hs : sysInv ρ s) :
    sysInv ρ t := by
  obtain ⟨hl, hh⟩ := hs
  cases hst with
  | write_header hp c fl fi ev =>
      refine ⟨?_, ?_⟩
      · simp only [loopInv] at hl ⊢
        obtain ⟨h1, h2, h3⟩ := hl
        simp [h1, h2, h3]
      · cases hp <;> simp only [handlerInv] at hh ⊢ <;> simpa using hh
  | zero_write i hp c fl fi ev hi =>
      refine ⟨?_, ?_⟩
      · simp only [loopInv] at hl ⊢
        obtain ⟨h0, h1, h2, h3⟩ := hl
        refine ⟨hi, by simp [h1], ?_, h3⟩
        simp only [slotWrites_append, slotWrites_writeSlot, h2]
        exact zeroWriteList_take_succ ρ i hi
      · cases hp <;> simp only [handlerInv] at hh ⊢ <;> simpa using hh
  | zero_done hp c fl fi ev =>
      refine ⟨?_, ?_⟩
      · simp only [loopInv] at hl ⊢
        obtain ⟨h0, h1, h2, h3⟩ := hl
        refine ⟨Nat.zero_le _, h1, 0, ?_, h3⟩
        simp [h2, zeroWriteList_take_all]
      · exact hh
  | sweep_write j hp c fl fi ev hj =>
      refine ⟨?_, ?_⟩
      · simp only [loopInv] at hl ⊢
        obtain ⟨h0, h1, k, h2, h3⟩ := hl
        refine ⟨hj, by simp [h1], k, ?_, h3⟩
        simp only [slotWrites_append, slotWrites_writeSlot, h2, h3, List.append_assoc]
        rw [← sweepWriteList_take_succ ρ (countAt ρ k) j hj]
      · cases hp <;> simp only [handlerInv] at hh ⊢ <;> simpa using hh
  | sweep_fail j hp c fl fi ev hj =>
      refine ⟨?_, ?_⟩
      · simp only [loopInv] at hl ⊢
        obtain ⟨h0, h1, k, h2, h3⟩ := hl
        exact ⟨h1, k, j, h2⟩
      · exact hh
  | sweep_done hp c fl fi ev =>
      refine ⟨?_, ?_⟩
      · simp only [loopInv] at hl ⊢
        obtain ⟨h0, h1, k, h2, h3⟩ := hl
        refine ⟨h1, k, ?_, h3⟩
        rw [h2, sweepWriteList_take_all, sweepBlocks_succ, List.append_assoc]
      · exact hh
  | sleep_done hp c fl fi ev =>
      refine ⟨?_, ?_⟩
      · simp only [loopInv] at hl ⊢
        exact hl
      · exact hh
  | increment hp c fl fi ev =>
      refine ⟨?_, ?_⟩
      · simp only [loopInv] at hl ⊢
        obtain ⟨h1, k, h2, h3⟩ := hl
        exact ⟨h1, k + 1, Nat.succ_le_succ (Nat.zero_le _), h2,
          by rw [countAt_succ, h3]⟩
      · cases hp <;> simp only [handlerInv] at hh ⊢ <;> simpa using hh
  | check_exit hp c fi ev =>
      refine ⟨?_, ?_⟩
      · simp only [loopInv] at hl ⊢
        exact ⟨by trivial, hl⟩
      · exact hh
  | check_continue hp c fi ev =>
      refine ⟨?_, ?_⟩
      · simp only [loopInv] at hl ⊢
        obtain ⟨h1, k, hk, h2, h3⟩ := hl
        exact ⟨Nat.zero_le _, h1, k, by simp [h2], h3⟩
      · exact hh
  | signal l c fl fi ev =>
      refine ⟨?_, ?_⟩
      · exact hl
      · simp only [handlerInv] at hh ⊢
        exact hh
  | persist_state l c fl fi ev =>
      refine ⟨?_, ?_⟩
      · cases l <;> simp only [loopInv] at hl ⊢ <;> simpa using hl
      · simp only [handlerInv] at hh ⊢
        obtain ⟨hp1, hp2, hp3⟩ := hh
        exact ⟨hp3, c, by simp [hp1], rfl⟩
  | raise_flag l c fi ev =>
      refine ⟨?_, ?_⟩
      · cases l <;> simp only [loopInv] at hl ⊢ <;>
          first
          | exact hl
          | exact absurd hl.1 (by simp)
      · simp only [handlerInv] at hh ⊢
        obtain ⟨hfl, c1, hp1, hp2⟩ := hh
        exact ⟨by trivial, c1, hp1, hp2⟩

theorem sysInv_run (ρ : BridgeEnv) {s : Sys} (h : Run ρ s) : sysInv ρ s := by
  induction h with
  | refl => exact sysInv_init ρ
  | tail hab hbc ih => exact sysInv_step ρ hbc ih

lemma mem_range_map_add (B n x : Nat) :
    x ∈ (List.range n).map (fun i => i + B) ↔ B ≤ x ∧ x < B + n := by
  simp only [List.mem_map, List.mem_range]
  constructor
  · rintro ⟨i, hi, rfl⟩
    omega
  · intro h
    exact ⟨x - B, by omega, by omega⟩

lemma zeroWriteList_fst (ρ : BridgeEnv) :
    (zeroWriteList ρ).map Prod.fst
      = (List.range ρ.zero_count).map (fun i => i + ρ.base) := by
  simp [zeroWriteList, List.map_map, Function.comp_def, ocsd_slot_for_index, BridgeEnv.base]

lemma sweepWriteList_fst (ρ : BridgeEnv) (c : Nat) :
    (sweepWriteList ρ c).map Prod.fst
      = (List.range ρ.num_devices).map (fun j => j + ρ.base) := by
  simp [sweepWriteList, List.map_map, Function.comp_def, ocsd_slot_for_index, BridgeEnv.base]

lemma mem_sweepBlocks_fst (ρ : BridgeEnv) (k x : Nat) :
    x ∈ (sweepBlocks ρ k).map Prod.fst
      ↔ 0 < k ∧ ρ.base ≤ x ∧ x < ρ.base + ρ.num_devices := by
  induction k with
  | zero => simp
  | succ k ih =>
      rw [sweepBlocks_succ, List.map_append, List.mem_append, ih, sweepWriteList_fst,
        mem_range_map_add]
      constructor
      · rintro (⟨hk, h⟩ | h) <;> exact ⟨Nat.succ_pos k, h⟩
      · rintro ⟨hk, h⟩
        exact Or.inr h

/-- A reachable `exited` state admits no further step of any thread. -/
lemma exited_stuck (ρ : BridgeEnv) {s t : Sys} (hrun : Run ρ s)
    (hex : s.loopPC = .exited) (hst : Step ρ s t) : False := by
  obtain ⟨hl, hh⟩ := sysInv_run ρ hrun
  cases hst <;> simp_all [loopInv, handlerInv]

/-- Once a reachable state has exited, no strictly later state exists. -/
lemma exited_no_progress (ρ : BridgeEnv) {s t : Sys} (hrun : Run ρ s)
    (hex : s.loopPC = .exited) (h : Relation.ReflTransGen (Step ρ) s t) : t = s := by
  rcases Relation.ReflTransGen.cases_head h with heq | ⟨u, hu, _⟩
  · exact heq.symm
  · exact absurd hu (fun hu => exited_stuck ρ hrun hex hu)

lemma run_sysMid : Run envC1 sysMid :=
  Relation.ReflTransGen.refl
    |>.tail (Step.write_header .idle 0 false none [])
    |>.tail (Step.zero_write 0 .idle 0 false none
      [.writeHeader ⟨1, 2, 0⟩] (by decide))
    |>.tail (Step.zero_write 1 .idle 0 false none
      [.writeHeader ⟨1, 2, 0⟩, .writeSlot 0 zeroOcsdDevice] (by decide))
    |>.tail (Step.zero_done .idle 0 false none
      [.writeHeader ⟨1, 2, 0⟩, .writeSlot 0 zeroOcsdDevice, .writeSlot 1 zeroOcsdDevice])
    |>.tail (Step.signal (.sweeping 0) 0 false none
      [.writeHeader ⟨1, 2, 0⟩, .writeSlot 0 zeroOcsdDevice, .writeSlot 1 zeroOcsdDevice])
    |>.tail (Step.persist_state (.sweeping 0) 0 false none
      [.writeHeader ⟨1, 2, 0⟩, .writeSlot 0 zeroOcsdDevice, .writeSlot 1 zeroOcsdDevice])
    |>.tail (Step.raise_flag (.sweeping 0) 0 (some ⟨0, 0⟩)
      [.writeHeader ⟨1, 2, 0⟩, .writeSlot 0 zeroOcsdDevice, .writeSlot 1 zeroOcsdDevice,
        .persist ⟨0, 0⟩])

lemma run_mid_fin : Relation.ReflTransGen (Step envC1) sysMid sysFin :=
  Relation.ReflTransGen.refl
    |>.tail (Step.sweep_write 0 .done 0 true (some ⟨0, 0⟩)
      [.writeHeader ⟨1, 2, 0⟩, .writeSlot 0 zeroOcsdDevice, .writeSlot 1 zeroOcsdDevice,
        .persist ⟨0, 0⟩] (by decide))
    |>.tail (Step.sweep_done .done 0 true (some ⟨0, 0⟩)
      [.writeHeader ⟨1, 2, 0⟩, .writeSlot 0 zeroOcsdDevice, .writeSlot 1 zeroOcsdDevice,
        .persist ⟨0, 0⟩, .writeSlot 0 zeroOcsdDevice])
    |>.tail (Step.sleep_done .done 0 true (some ⟨0, 0⟩)
      [.writeHeader ⟨1, 2, 0⟩, .writeSlot 0 zeroOcsdDevice, .writeSlot 1 zeroOcsdDevice,
        .persist ⟨0, 0⟩, .writeSlot 0 zeroOcsdDevice])
    |>.tail (Step.increment .done 0 true (some ⟨0, 0⟩)
      [.writeHeader ⟨1, 2, 0⟩, .writeSlot 0 zeroOcsdDevice, .writeSlot 1 zeroOcsdDevice,
        .persist ⟨0, 0⟩, .writeSlot 0 zeroOcsdDevice])
    |>.tail (Step.check_exit .done 1 (some ⟨0, 0⟩)
      [.writeHeader ⟨1, 2, 0⟩, .writeSlot 0 zeroOcsdDevice, .writeSlot 1 zeroOcsdDevice,
        .persist ⟨0, 0⟩, .writeSlot 0 zeroOcsdDevice])

lemma run_sysFin : Run envC1 sysFin :=
  Relation.ReflTransGen.trans run_sysMid run_mid_fin

/-- In a reachable terminated state the flag is up, the header was
written exactly once, and the slot-write trace is the zeroing writes
followed by at least one complete polling sweep. -/
lemma exited_inv (ρ : BridgeEnv) {s : Sys} (hrun : Run ρ s) (hex : s.loopPC = .exited) :
    s.flag = true ∧ headerWrites s.events = [ρ.modified_header] ∧
      ∃ k, 1 ≤ k ∧ slotWrites s.events = zeroWriteList ρ ++ sweepBlocks ρ k := by
  obtain ⟨hl, _⟩ := sysInv_run ρ hrun
  unfold loopInv at hl
  rw [hex] at hl
  exact ⟨hl.1, hl.2.1, hl.2.2.imp fun k hk => ⟨hk.1, hk.2.1⟩⟩

/-- Whenever the flag is observed up, the handler's persist already ran
to completion: the state file holds the counter value the handler read
and the session's offset. -/
lemma flag_implies_persisted (ρ : BridgeEnv) {s : Sys} (hrun : Run ρ s)
    (hflag : s.flag = true) :
    ∃ c, persistWrites s.events = [⟨c, ρ.base⟩] ∧ s.file = some ⟨c, ρ.base⟩ := by
  obtain ⟨_, hh⟩ := sysInv_run ρ hrun
  unfold handlerInv at hh
  cases hpc : s.handlerPC <;> rw [hpc] at hh
  · simp [hflag] at hh
  · simp [hflag] at hh
  · simp [hflag] at hh
  · exact hh.2

/-! ## Claim C1 -/

/-- C1 fails as stated: in the session `envC1` (one device, base 0, two
option cards) the zeroing phase also writes slot 1, which is not a
device slot. -/
theorem c1_slot_index_set_cex : ¬ claimC1statement envC1 := by
  intro h
  have hmem : (1 : Nat) ∈ writtenSlotIndices sysFin.events := by decide
  have := ((h sysFin run_sysFin rfl).1 1).1 hmem
  exact absurd this (by decide)

/-- C1 (amended): in every terminated session the set of slot indices
ever written is exactly the zeroed range `[base, max_option_cards)`
together with the device slots `[base, base + num_devices)`, and every
written index is at least `base` (slots below the persisted offset are
never touched). -/
theorem c1_slot_index_set (ρ : BridgeEnv) (s : Sys)
    (hrun : Run ρ s) (hex : s.loopPC = .exited) :
    (∀ x, x ∈ writtenSlotIndices s.events ↔
        (ρ.base ≤ x ∧ x < ρ.original_header.max_option_cards)
        ∨ (ρ.base ≤ x ∧ x < ρ.base + ρ.num_devices))
    ∧ (∀ x ∈ writtenSlotIndices s.events, ρ.base ≤ x) := by
  obtain ⟨-, -, k, hk, hslot⟩ := exited_inv ρ hrun hex
  have hmem : ∀ x, x ∈ writtenSlotIndices s.events ↔
      (ρ.base ≤ x ∧ x < ρ.original_header.max_option_cards)
      ∨ (ρ.base ≤ x ∧ x < ρ.base + ρ.num_devices) := by
    intro x
    rw [writtenSlotIndices, hslot, List.map_append, List.mem_append, zeroWriteList_fst,
      mem_range_map_add, mem_sweepBlocks_fst]
    have hzc : ρ.zero_count = ρ.original_header.max_option_cards - ρ.base := rfl
    omega
  exact ⟨hmem, fun x hx => by rcases (hmem x).1 hx with h | h <;> exact h.1⟩

/-- Witness for C1 (amended) at the concrete session: slot 0 is written
and lies in the characterized set. -/
theorem c1_slot_index_set_witness :
    0 ∈ writtenSlotIndices sysFin.events ↔
      (envC1.base ≤ 0 ∧ 0 < envC1.original_header.max_option_cards)
      ∨ (envC1.base ≤ 0 ∧ 0 < envC1.base + envC1.num_devices) :=
  (c1_slot_index_set envC1 sysFin run_sysFin rfl).1 0

/-! ## Claim C2 -/

/-- C2 fails as stated: in `envC1` the zeroing phase writes slot 0,
which is exactly the slot assigned to live device 0. -/
theorem c2_zeroing_cex : ¬ claimC2statement envC1 := by
  intro h
  exact h.2 (0, zeroOcsdDevice) (by decide) 0 (by decide) (by decide)

/-- C2 (amended): in every terminated session the slot-write trace
starts with the zeroing writes; the zeroing phase writes exactly
`max_option_cards - original_buffers_in_use` slots, each carrying the
all-zero/unknown record, at the indices `[base, max_option_cards)` —
a range that includes the live devices' slots (they are re-written by
the subsequent polling sweeps). -/
theorem c2_zeroing (ρ : BridgeEnv) (s : Sys)
    (hrun : Run ρ s) (hex : s.loopPC = .exited) :
    (∃ k, 1 ≤ k ∧ slotWrites s.events = zeroWriteList ρ ++ sweepBlocks ρ k)
    ∧ (zeroWriteList ρ).length = ρ.original_header.max_option_cards - ρ.base
    ∧ (∀ p ∈ zeroWriteList ρ, p.2 = zeroOcsdDevice)
    ∧ (∀ p ∈ zeroWriteList ρ,
        ρ.base ≤ p.1 ∧ p.1 < ρ.original_header.max_option_cards) := by
  obtain ⟨-, -, k, hk, hslot⟩ := exited_inv ρ hrun hex
  refine ⟨⟨k, hk, hslot⟩, (zeroWriteList_length ρ).trans rfl, ?_, ?_⟩
  · intro p hp
    simp only [zeroWriteList, List.mem_map, List.mem_range] at hp
    obtain ⟨i, -, rfl⟩ := hp
    rfl
  · intro p hp
    simp only [zeroWriteList, List.mem_map, List.mem_range] at hp
    obtain ⟨i, hi, rfl⟩ := hp
    have hzc : ρ.zero_count = ρ.original_header.max_option_cards - ρ.base := rfl
    have hb : ρ.base = ρ.app_state.original_buffers_in_use := rfl
    simp only [ocsd_slot_for_index]
    constructor <;> omega

/-! ## Claims C3 and C10 -/

/-- C3: when the slowdown-threshold read fails but the other reads of
the device succeed (with an in-range temperature), read_device_info
still returns Ok, the snapshot's threshold is the 70°C default, and the
encoded record's max_continuous_threshold is 70°C. -/
theorem c3_threshold_failure_defaults_70 (dev : NvmlDevice) (c : Nat) (pci : PciInfo)
    (t : Nat) (nm : String) (e : Unit)
    (hpci : dev.pci_info = .ok pci) (hbus : pci.bus < 256)
    (ht : dev.temperature = .ok t) (ht127 : t ≤ 127)
    (hth : dev.temperature_threshold = .error e)
    (hnm : dev.name = .ok nm) :
    readSucceeded (read_device_info dev c) = true
    ∧ snapshotThreshold (read_device_info dev c) = some (some 70)
    ∧ encodedMaxThreshold (read_device_info dev c) = some ⟨70⟩ := by
  have ht32 : t ≤ 32767 := by omega
  have hu8 : u8_try pci.bus = some pci.bus := by
    rw [u8_try, if_pos hbus]
  have hi16 : i16_try_u32 t = some (t : Int) := by
    rw [i16_try_u32, if_pos ht32]
  have hread : read_device_info dev c = some (.ok
      { slot := pci.slot
        pci_bus := pci.bus
        current_temperature_celsius := (t : Int)
        temperature_threshold_celsius := some 70
        name := nm
        count := c }) := by
    simp only [read_device_info, hpci, ht, hth, hnm, hu8, hi16]
  have hreading : Celsius.new ((t : Nat) : Int) = some ⟨(t : Int)⟩ := by
    rw [Celsius.new, if_pos]
    constructor <;> omega
  have hencode : ocsdDeviceOfDeviceInfo
      { slot := pci.slot
        pci_bus := pci.bus
        current_temperature_celsius := (t : Int)
        temperature_threshold_celsius := some 70
        name := nm
        count := c } = some
      { header := { version := .Version1, pci_bus := pci.bus, pci_device := 0x00,
                    flags_caps := 0x00000010 }
        sensors :=
          [ { sensor_type := .Thermal
              sensor_location := .InternalToAsic
              configuration := 0x0000
              status := [.WithChecksum, .Present, .NotFailed]
              max_continuous_threshold := ⟨70⟩
              caution_threshold := ⟨100⟩
              reading := ⟨(t : Int)⟩
              update_count := c
              bus := some pci.bus }
            , OcsdSensor.unknownDefault, OcsdSensor.unknownDefault ] } := by
    rw [ocsdDeviceOfDeviceInfo]
    simp only [Option.getD_some]
    rw [show Celsius.new 70 = some ⟨70⟩ from rfl, show Celsius.new 100 = some ⟨100⟩ from rfl,
      hreading]
  refine ⟨?_, ?_, ?_⟩
  · simp only [hread, readSucceeded]
  · simp only [hread, snapshotThreshold]
  · simp only [hread, encodedMaxThreshold, hencode]

/-- Witness for C3 at a concrete device. -/
theorem c3_threshold_failure_defaults_70_witness :
    readSucceeded (read_device_info devThresholdFail 3) = true
    ∧ snapshotThreshold (read_device_info devThresholdFail 3) = some (some 70)
    ∧ encodedMaxThreshold (read_device_info devThresholdFail 3) = some ⟨70⟩ :=
  c3_threshold_failure_defaults_70 devThresholdFail 3 ⟨0x04⟩ 50 "gpu0" ()
    rfl (by decide) rfl (by decide) rfl rfl

/-- C10: when the slowdown-threshold read succeeds with value T (and the
other reads succeed with in-range values), the snapshot's threshold
field is T - 20, and the encoded record's max_continuous_threshold is
T - 20 degrees Celsius. -/
theorem c10_threshold_minus_20 (dev : NvmlDevice) (c : Nat) (pci : PciInfo)
    (t T : Nat) (nm : String)
    (hpci : dev.pci_info = .ok pci) (hbus : pci.bus < 256)
    (ht : dev.temperature = .ok t) (ht127 : t ≤ 127)
    (hth : dev.temperature_threshold = .ok T) (hT20 : 20 ≤ T) (hT147 : T ≤ 147)
    (hnm : dev.name = .ok nm) :
    snapshotThreshold (read_device_info dev c) = some (some ((T : Int) - 20))
    ∧ encodedMaxThreshold (read_device_info dev c) = some ⟨(T : Int) - 20⟩ := by
  have ht32 : t ≤ 32767 := by omega
  have hu8 : u8_try pci.bus = some pci.bus := by
    rw [u8_try, if_pos hbus]
  have hi16 : i16_try_u32 t = some (t : Int) := by
    rw [i16_try_u32, if_pos ht32]
  have hsub : u32_sub T 20 = some (T - 20) := by
    rw [u32_sub, if_pos hT20]
  have hconv : i16_try_u32 (T - 20) = some (((T - 20 : Nat)) : Int) := by
    rw [i16_try_u32, if_pos (by omega)]
  have hcast : (((T - 20 : Nat)) : Int) = (T : Int) - 20 := by omega
  have hread : read_device_info dev c = some (.ok
      { slot := pci.slot
        pci_bus := pci.bus
        current_temperature_celsius := (t : Int)
        temperature_threshold_celsius := some ((T : Int) - 20)
        name := nm
        count := c }) := by
    simp only [read_device_info, hpci, ht, hth, hnm, hu8, hi16, hsub, Option.some_bind,
      hconv, hcast, Option.map_some']
  have hreading : Celsius.new ((t : Nat) : Int) = some ⟨(t : Int)⟩ := by
    rw [Celsius.new, if_pos]
    constructor <;> omega
  have hthr : Celsius.new ((T : Int) - 20) = some ⟨(T : Int) - 20⟩ := by
    rw [Celsius.new, if_pos]
    constructor <;> omega
  have hencode : ocsdDeviceOfDeviceInfo
      { slot := pci.slot
        pci_bus := pci.bus
        current_temperature_celsius := (t : Int)
        temperature_threshold_celsius := some ((T : Int) - 20)
        name := nm
        count := c } = some
      { header := { version := .Version1, pci_bus := pci.bus, pci_device := 0x00,
                    flags_caps := 0x00000010 }
        sensors :=
          [ { sensor_type := .Thermal
              sensor_location := .InternalToAsic
              configuration := 0x0000
              status := [.WithChecksum, .Present, .NotFailed]
              max_continuous_threshold := ⟨(T : Int) - 20⟩
              caution_threshold := ⟨100⟩
              reading := ⟨(t : Int)⟩
              update_count := c
              bus := some pci.bus }
            , OcsdSensor.unknownDefault, OcsdSensor.unknownDefault ] } := by
    rw [ocsdDeviceOfDeviceInfo]
    simp only [Option.getD_some]
    rw [hthr, show Celsius.new 100 = some ⟨100⟩ from rfl, hreading]
  refine ⟨?_, ?_⟩
  · simp only [hread, snapshotThreshold]
  · simp only [hread, encodedMaxThreshold, hencode]

/-- Witness for C10 at a concrete device: slowdown threshold 90 gives an
encoded max_continuous_threshold of 70. -/
theorem c10_threshold_minus_20_witness :
    snapshotThreshold (read_device_info devThresholdOk 5) = some (some ((90 : Int) - 20))
    ∧ encodedMaxThreshold (read_device_info devThresholdOk 5) = some ⟨(90 : Int) - 20⟩ :=
  c10_threshold_minus_20 devThresholdOk 5 ⟨0x0a⟩ 55 90 "gpu1"
    rfl (by decide) rfl (by decide) rfl (by decide) (by decide) rfl

/-! ## Claim C4 -/

/-- C4: on any read or deserialize failure, load_app_state returns the
default state derived from the header; it never returns an error (its
return type is a plain AppState). -/
theorem c4_load_state_fallback (header : OcsdHeader)
    (r : Except Unit (Except Unit AppState))
    (h : ∀ s, r ≠ .ok (.ok s)) :
    load_app_state header r
      = { count := 0, original_buffers_in_use := header.buffers_in_use } := by
  match r with
  | .error e => rfl
  | .ok (.error e) => rfl
  | .ok (.ok s) => exact absurd rfl (h s)

/-- Witness for C4: a failed open of the state file yields the default
derived from a header with buffers_in_use 3. -/
theorem c4_load_state_fallback_witness :
    load_app_state ⟨3, 5, 7⟩ (.error ())
      = { count := 0, original_buffers_in_use := 3 } :=
  c4_load_state_fallback ⟨3, 5, 7⟩ (.error ()) (fun s hcon => by cases hcon)

/-! ## Claim C5 -/

/-- C5: in every terminated session the header was written back exactly
once, with buffers_in_use equal to the session's original offset plus
the device count (no u8 overflow assumed), and with max_option_cards and
all remaining firmware-owned fields unchanged from the header read at
startup. -/
theorem c5_header_written_once (ρ : BridgeEnv) (s : Sys)
    (hrun : Run ρ s) (hex : s.loopPC = .exited)
    (hsmall : ρ.base + ρ.num_devices < 256) :
    headerWrites s.events = [ρ.modified_header]
    ∧ ρ.modified_header.buffers_in_use = ρ.base + ρ.num_devices
    ∧ ρ.modified_header.max_option_cards = ρ.original_header.max_option_cards
    ∧ ρ.modified_header.firmware_rest = ρ.original_header.firmware_rest := by
  obtain ⟨-, hhead, -⟩ := exited_inv ρ hrun hex
  refine ⟨hhead, ?_, rfl, rfl⟩
  have h1 : ρ.num_devices % 256 = ρ.num_devices := Nat.mod_eq_of_lt (by omega)
  have h2 : ρ.modified_header.buffers_in_use
      = (ρ.base + ρ.num_devices % 256) % 256 := rfl
  rw [h2, h1, Nat.mod_eq_of_lt hsmall]

/-- Witness for C5 at the concrete session. -/
theorem c5_header_written_once_witness :
    headerWrites sysFin.events = [envC1.modified_header] :=
  (c5_header_written_once envC1 sysFin run_sysFin rfl (by decide)).1

/-! ## Claim C6 -/

/-- C7: in every terminated session the handler's persist ran to
completion before the exit: the state file holds a record with the
session's original_buffers_in_use and the counter value read at stop
time, and exactly one persist write occurred. -/
theorem c7_persist_before_exit (ρ : BridgeEnv) (s : Sys)
    (hrun : Run ρ s) (hex : s.loopPC = .exited) :
    ∃ c, persistWrites s.events = [⟨c, ρ.base⟩] ∧ s.file = some ⟨c, ρ.base⟩ := by
  have hflag : s.flag = true := (exited_inv ρ hrun hex).1
  exact flag_implies_persisted ρ hrun hflag

/-- Witness for C7 at the concrete session. -/
theorem c7_persist_before_exit_witness :
    ∃ c, persistWrites sysFin.events = [⟨c, envC1.base⟩]
      ∧ sysFin.file = some ⟨c, envC1.base⟩ :=
  c7_persist_before_exit envC1 sysFin run_sysFin rfl

/-! ## Claim C8 -/

/-- C8: encoding a snapshot whose current temperature, or whose present
threshold, lies outside the signed 8-bit Celsius wire representation
fails instead of producing a record. -/
theorem c8_encoder_rejects_out_of_range (d : DeviceInfo)
    (h : ¬ (-128 ≤ d.current_temperature_celsius ∧ d.current_temperature_celsius ≤ 127)
       ∨ ∃ t, d.temperature_threshold_celsius = some t ∧ ¬ (-128 ≤ t ∧ t ≤ 127)) :
    ocsdDeviceOfDeviceInfo d = none := by
  rcases h with h | ⟨t, ht, hr⟩
  · have hnone : Celsius.new d.current_temperature_celsius = none := by
      rw [Celsius.new, if_neg h]
    rcases hcm : Celsius.new (d.temperature_threshold_celsius.getD 90) with - | mc
    · simp only [ocsdDeviceOfDeviceInfo, hcm]
    · simp only [ocsdDeviceOfDeviceInfo, hcm, hnone,
        show Celsius.new 100 = some ⟨100⟩ from rfl]
  · have hnone : Celsius.new t = none := by
      rw [Celsius.new, if_neg hr]
    simp only [ocsdDeviceOfDeviceInfo, ht, Option.getD_some, hnone]

/-- Witness for C8: a snapshot with a 200°C reading is rejected. -/
theorem c8_encoder_rejects_out_of_range_witness :
    ocsdDeviceOfDeviceInfo
      { slot := none, pci_bus := 0, current_temperature_celsius := 200,
        temperature_threshold_celsius := some 70, name := "gpu2", count := 0 } = none :=
  c8_encoder_rejects_out_of_range _ (Or.inl (by decide))

/-! ## Claim C9 -/

/-- C9 fails as stated: in the concrete session the stop handler
finishes before the first sweep begins, yet the loop still performs one
full sweep (writing slot 0) before it checks the flag — the check sits
at the bottom of the loop body, not at the top. -/
theorem c9_stop_sequence_cex : ¬ claimC9statement envC1 := by
  intro h
  have := h.2 sysMid sysFin run_sysMid rfl rfl run_mid_fin
  exact absurd this (by decide)

/-- C9 (amended): the handler persists the counter before raising the
flag (so a raised flag implies a completed persist); the loop observes
the flag at the end of each polling iteration, hence a terminated
session's slot-write trace consists of complete sweeps only (no torn
in-flight write), and a terminated state admits no further step, so no
write of any kind follows the observation. -/
theorem c9_stop_sequence (ρ : BridgeEnv) (s : Sys) (hrun : Run ρ s) :
    (s.flag = true →
      ∃ c, persistWrites s.events = [⟨c, ρ.base⟩] ∧ s.file = some ⟨c, ρ.base⟩)
    ∧ (s.loopPC = .exited →
        (∃ k, 1 ≤ k ∧ slotWrites s.events = zeroWriteList ρ ++ sweepBlocks ρ k)
        ∧ ∀ t, Relation.ReflTransGen (Step ρ) s t → t = s) := by
  refine ⟨fun hflag => flag_implies_persisted ρ hrun hflag, fun hex => ⟨?_, ?_⟩⟩
  · exact (exited_inv ρ hrun hex).2.2
  · exact fun t ht => exited_no_progress ρ hrun hex ht

/-- Witness for C9 (amended) at the concrete session: the terminated
trace is the zeroing writes plus one complete sweep. -/
theorem c9_stop_sequence_witness :
    ∃ k, 1 ≤ k ∧ slotWrites sysFin.events = zeroWriteList envC1 ++ sweepBlocks envC1 k :=
  ((c9_stop_sequence envC1 sysFin run_sysFin).2 rfl).1

/-- Witness for C2 (amended) at the concrete session: the zeroing phase
writes exactly max_option_cards - base slots. -/
theorem c2_zeroing_witness :
    (zeroWriteList envC1).length
      = envC1.original_header.max_option_cards - envC1.base :=
  (c2_zeroing envC1 sysFin run_sysFin rfl).2.1
